import Mathlib

/-!
Verification development for the Personal_Portfolio project-scaffolding
tools.  The definitions below are shallow embeddings, translated from the
Python sources:

  - scripts/new_project.py  (the v5 scaffolder: slug, folder name, metadata,
    narrative, existence check)
  - tools/new_project.py    (the template-driven scaffolder: slugify,
    render_template, SUBDIRS layout, Meta.Project.yaml)
  - tools/validate_meta.py  (the standalone metadata validator: SCHEMA,
    missing-key and wrong-type reporting, completion signal)

Strings are modelled at the ASCII level (all characters the repository
actually exercises); timestamps and the current date are passed in as
parameters; writing a JSON-serialized record to disk and reading it back is
modelled at the value level (serialization round-trip taken as identity).
Filesystem activity is modelled as an ordered trace of mutation events.
-/

namespace PortfolioSpec

/-! ### Character helpers (ASCII fragments of the Python predicates) -/

/-- ASCII fragment of the character class matched by the regex `\s` and by
the no-argument `str.strip()`: space, tab, newline, carriage return,
vertical tab, form feed. -/
def isSpaceChar (c : Char) : Bool :=
  c = ' ' || c = '\t' || c = '\n' || c = '\r' || c.toNat = 11 || c.toNat = 12

/-- ASCII fragment of the regex class `\w`: letters, digits, underscore. -/
def isWordChar (c : Char) : Bool :=
  c.isAlphanum || c = '_'

/-- Lowercase ASCII letter or digit, the class `[a-z0-9]` used by
`tools/new_project.py slugify`. -/
def isLowerDigit (c : Char) : Bool :=
  (97 ≤ c.toNat && c.toNat ≤ 122) || (48 ≤ c.toNat && c.toNat ≤ 57)

/-- Python `str.strip()` on a character list: drop whitespace at both ends. -/
def pyStripChars (l : List Char) : List Char :=
  ((l.dropWhile isSpaceChar).reverse.dropWhile isSpaceChar).reverse

/-- Python `str.strip()` at the string level. -/
def pyStrip (s : String) : String :=
  String.mk (pyStripChars s.data)

/-! ### scripts/new_project.py `slug` -/

/-- A character kept by `re.sub(r"[^\w\s\-]+", "", s)` in `slug`. -/
def keepSlugChar (c : Char) : Bool :=
  isWordChar c || isSpaceChar c || c = '-'

/-- `re.sub(r"\s+", "-", s)`: collapse each maximal run of whitespace to a
single dash.  The flag records whether we are inside a whitespace run. -/
def collapseGo : Bool → List Char → List Char
  | _, [] => []
  | inRun, c :: rest =>
    if isSpaceChar c then
      (if inRun then [] else ['-']) ++ collapseGo true rest
    else
      c :: collapseGo false rest

/-- Dash or underscore, the class trimmed at the edges by
`re.sub(r"^[-_]+|[-_]+$", "", s)`. -/
def isDashUnd (c : Char) : Bool :=
  c = '-' || c = '_'

/-- `re.sub(r"^[-_]+|[-_]+$", "", s)`: drop the leading and the trailing
run of dashes and underscores. -/
def trimEdge (l : List Char) : List Char :=
  ((l.dropWhile isDashUnd).reverse.dropWhile isDashUnd).reverse

/-- The normalization pipeline of `slug` in scripts/new_project.py before
truncation: `(s or "").strip().lower()`, strip `[^\w\s\-]`, collapse
whitespace to `-`, trim edge `-`/`_`. -/
def slugChars (l : List Char) : List Char :=
  trimEdge (collapseGo false (((pyStripChars l).map Char.toLower).filter keepSlugChar))

/-- `slug(s, maxlen)` from scripts/new_project.py.  The final
`s[:maxlen] if maxlen else s` truncates only when `maxlen` is truthy,
i.e. present and nonzero. -/
def slug (s : String) (maxlen : Option Nat) : String :=
  match maxlen with
  | none => String.mk (slugChars s.data)
  | some n => if n = 0 then String.mk (slugChars s.data) else String.mk ((slugChars s.data).take n)

/-! ### tools/new_project.py `slugify` -/

/-- `re.sub(r'[^a-z0-9]+', '-', text)`: replace each maximal run of
characters outside `[a-z0-9]` with a single dash. -/
def slugifyGo : Bool → List Char → List Char
  | _, [] => []
  | inRun, c :: rest =>
    if isLowerDigit c then
      c :: slugifyGo false rest
    else
      (if inRun then [] else ['-']) ++ slugifyGo true rest

/-- Python `str.strip('-')`: drop dashes at both ends. -/
def stripDashes (l : List Char) : List Char :=
  ((l.dropWhile (· = '-')).reverse.dropWhile (· = '-')).reverse

/-- `slugify(text)` from tools/new_project.py:
`re.sub(r'[^a-z0-9]+', '-', text.lower()).strip('-')`. -/
def slugify (s : String) : String :=
  String.mk (stripDashes (slugifyGo false (s.data.map Char.toLower)))

/-- The normalization pipeline exactly as the specification words it
(lowercase, strip characters outside `[a-z0-9_\s-]`, collapse whitespace
runs to `-`, trim edge `-`/`_`, truncate).  Declared only to compare the
described behaviour with the code; it is not translated from the source. -/
def specNormalize (s : String) (maxLen : Option Nat) : String :=
  match maxLen with
  | none => String.mk (trimEdge (collapseGo false ((s.data.map Char.toLower).filter
      (fun c => isLowerDigit c || c = '_' || isSpaceChar c || c = '-'))))
  | some n => String.mk ((trimEdge (collapseGo false ((s.data.map Char.toLower).filter
      (fun c => isLowerDigit c || c = '_' || isSpaceChar c || c = '-')))).take n)

/-! ### tools/new_project.py `render_template` -/

/-- Left brace character, written numerically so templates can be spelled
out without brace literals. -/
def lbrace : Char := Char.ofNat 123

/-- Right brace character. -/
def rbrace : Char := Char.ofNat 125

/-- The placeholder marker for a key, two braces on each side, as built by
the f-string in `render_template`. -/
def marker (k : String) : List Char :=
  lbrace :: lbrace :: (k.data ++ [rbrace, rbrace])

/-- One step of Python `str.replace(old, new)`: replace every non-overlapping
occurrence of `pat`, scanning left to right; the replacement text is not
rescanned.  The fuel argument (one unit per consumed character) makes the
recursion structural; `replaceAll` supplies `text.length`, which is always
sufficient because every step consumes at least one character. -/
def replaceGo (pat rep : List Char) : Nat → List Char → List Char
  | 0, text => text
  | _ + 1, [] => []
  | fuel + 1, c :: rest =>
    if pat.isPrefixOf (c :: rest) && !pat.isEmpty then
      rep ++ replaceGo pat rep fuel (rest.drop (pat.length - 1))
    else
      c :: replaceGo pat rep fuel rest

/-- Python `text.replace(pat, rep)` for a nonempty pattern (every pattern
built by `render_template` is a nonempty marker). -/
def replaceAll (pat rep text : List Char) : List Char :=
  replaceGo pat rep text.length text

/-- Does `pat` occur as a contiguous substring of `text`?  (Bool-valued.) -/
def containsPat (pat : List Char) : List Char → Bool
  | [] => pat.isEmpty
  | c :: rest => pat.isPrefixOf (c :: rest) || containsPat pat rest

/-- `render_template` from tools/new_project.py: for each `(key, val)` of
the context, in order, replace every occurrence of the marker of `key` in
the accumulated text with `val`. -/
def renderTemplate (tmpl : String) (ctx : List (String × String)) : String :=
  String.mk (ctx.foldl (fun text kv => replaceAll (marker kv.1) kv.2.data text) tmpl.data)

/-! ### tools/validate_meta.py -/

/-- JSON-level values, the data produced by `json.loads` and consumed by
`isinstance` checks in the validator. -/
inductive Value where
  | str (s : String)
  | arr (l : List Value)
  | num (n : Int)
  | bool (b : Bool)
  | null
  | obj (fields : List (String × Value))

/-- The two Python types appearing in `SCHEMA`: `str` and `list`. -/
inductive Ty where
  | str
  | list
deriving DecidableEq

/-- `typ.__name__` for the two schema types. -/
def tyName : Ty → String
  | .str => "str"
  | .list => "list"

/-- `SCHEMA` from tools/validate_meta.py, in source order. -/
def SCHEMA : List (String × Ty) :=
  [(("title"), .str), (("client"), .str), (("owner"), .str), (("type"), .str),
   (("channels"), .list), (("status"), .str), (("due_date"), .str),
   (("rights"), .list), (("approvals"), .list), (("deliverables"), .list),
   (("tags"), .list), (("repo_links"), .list)]

/-- A metadata record: a finite string-keyed map, modelled as an
association list with first-match lookup (`key in data` / `data[key]`). -/
def lookup : List (String × Value) → String → Option Value
  | [], _ => none
  | (k, v) :: rest, key => if k = key then some v else lookup rest key

/-- `isinstance(v, typ)` for the two schema types. -/
def matchesTy : Value → Ty → Bool
  | .str _, .str => true
  | .arr _, .list => true
  | _, _ => false

/-- The validation loop of tools/validate_meta.py `main`: walk the schema in
order, appending `missing key: k` when `k` is absent and
`key k should be t` when present with the wrong type. -/
def validateGo (data : List (String × Value)) : List (String × Ty) → List String
  | [] => []
  | (k, t) :: rest =>
    (match lookup data k with
     | none => [("missing key: ") ++ k]
     | some v => if matchesTy v t then [] else [("key ") ++ k ++ (" should be ") ++ tyName t])
    ++ validateGo data rest

/-- The full violation list produced for a record. -/
def validate (data : List (String × Value)) : List String :=
  validateGo data SCHEMA

/-- The completion signal of the validator entry point: `sys.exit(1)` when
the error list is nonempty, normal exit (0) otherwise. -/
def mainExit (data : List (String × Value)) : Nat :=
  if validate data = [] then 0 else 1

/-! ### Scaffolder state: filesystem mutation events -/

/-- The errors the scaffolders can surface.  scripts/new_project.py raises
`SystemExit("Folder already exists: ...")` when the project root exists. -/
inductive ScaffoldError where
  | alreadyExists
deriving DecidableEq

/-- One filesystem mutation performed by a scaffolder, in program order:
directory creation (`mkdir(parents=True, exist_ok=True)`), a text write, a
write of a JSON-serialized record (content kept at the value level), or a
copy of a static template file. -/
inductive Event where
  | mkdirp (path : List String)
  | writeText (path : List String) (content : String)
  | writeJson (path : List String) (content : List (String × Value))
  | copyFile (src : String) (dst : List String)

/-- Stage of an event in the scaffolding lifecycle: 0 layout creation,
1 metadata record write, 2 document write or copy. -/
def eventStage : Event → Nat
  | .mkdirp _ => 0
  | .writeJson _ _ => 1
  | .writeText _ _ => 2
  | .copyFile _ _ => 2

/-- Is a list of naturals nondecreasing? -/
def nondecB : List Nat → Bool
  | [] => true
  | [_] => true
  | a :: b :: rest => a.ble b && nondecB (b :: rest)

/-- Does a trace respect the strict stage order layout, then metadata, then
documents?  True exactly when the stages of its events are nondecreasing. -/
def stageOrdered (t : List Event) : Bool :=
  nondecB (t.map eventStage)

/-! ### scripts/new_project.py `main` -/

/-- The CLI parameters of scripts/new_project.py (comma-separated list
fields kept as their raw strings, as argparse delivers them). -/
structure ScriptArgs where
  title : String
  organization : String
  workType : String
  year : String
  role : String
  seniority : String
  categories : String
  skills : String
  toolsCsv : String
  tags : String
  highlights : String
  linkLive : String
  linkRepo : String
  linkVideo : String
  nda : Int

/-- Python `s.split(sep)` on a character list (always at least one field). -/
def splitGo (sep : Char) : List Char → List Char → List (List Char)
  | acc, [] => [acc.reverse]
  | acc, c :: rest =>
    if c = sep then acc.reverse :: splitGo sep [] rest else splitGo sep (c :: acc) rest

/-- `[s.strip() for s in x.split(",") if s.strip()]`: split on commas,
strip each field, keep the nonempty ones. -/
def splitStrip (s : String) : List String :=
  ((splitGo ',' [] s.data).map pyStripChars).filterMap
    (fun l => if l = [] then none else some (String.mk l))

/-- The project folder name computed by scripts/new_project.py `main`:
`year = args.year.strip() or str(datetime.now().year)`,
`org = args.organization.strip() or "personal"`,
`folder = f"{year}_{slug(org,24)}_{slug(args.title,36) or 'untitled'}"`.
The current year is a parameter. -/
def scriptsFolder (title organization year currentYear : String) : String :=
  (if pyStrip year = ("") then currentYear else pyStrip year) ++ ("_") ++
  slug (if pyStrip organization = ("") then ("personal") else pyStrip organization) (some 24) ++ ("_") ++
  (if slug title (some 36) = ("") then ("untitled") else slug title (some 36))

/-- The metadata dict built by scripts/new_project.py `main`, with the two
`datetime.utcnow()` calls modelled by the single `nowIso` parameter. -/
def scriptsMetadata (a : ScriptArgs) (currentYear nowIso : String) : List (String × Value) :=
  [(("schema_version"), .str ("3.0.0")),
   (("title"), .str a.title),
   (("organization"), .str a.organization),
   (("work_type"), .str a.workType),
   (("year"), .str (if pyStrip a.year = ("") then currentYear else pyStrip a.year)),
   (("role"), .str a.role),
   (("seniority"), .str a.seniority),
   (("categories"), .arr ((splitStrip a.categories).map .str)),
   (("skills"), .arr ((splitStrip a.skills).map .str)),
   (("tools"), .arr ((splitStrip a.toolsCsv).map .str)),
   (("tags"), .arr ((splitStrip a.tags).map .str)),
   (("highlights"), .arr ((splitStrip a.highlights).map .str)),
   (("links"), .obj [(("live"), .str a.linkLive), (("repo"), .str a.linkRepo), (("video"), .str a.linkVideo)]),
   (("privacy"), .obj [(("nda"), .bool (a.nda != 0))]),
   (("pcsi"), .obj [(("problem"), .str ("")), (("challenge"), .str ("")), (("solution"), .str ("")), (("impact"), .str (""))]),
   (("case"), .obj [(("problem"), .str ("")), (("challenge"), .str ("")), (("actions"), .str ("")), (("results"), .str (""))]),
   (("cover_image"), .str ("06_Exports/cover.jpg")),
   (("assets"), .arr []),
   (("created_at"), .str (nowIso ++ ("Z"))),
   (("updated_at"), .str (nowIso ++ ("Z")))]

/-- The snapshot bullet list of scripts/new_project.py (truthiness of the
raw organization and role strings, nonemptiness of the parsed lists). -/
def scriptsSnapshot (a : ScriptArgs) : List String :=
  (if a.organization = ("") then [] else [("- **Organization:** ") ++ a.organization])
  ++ (if a.role = ("") then [] else [("- **Role:** ") ++ a.role ++ (" (") ++ a.seniority ++ (")")])
  ++ (if splitStrip a.categories = [] then []
      else [("- **Categories:** ") ++ String.intercalate (", ") (splitStrip a.categories)])
  ++ (if splitStrip a.toolsCsv = [] then []
      else [("- **Tools:** ") ++ String.intercalate (", ") (splitStrip a.toolsCsv)])

/-- The narrative lines of scripts/new_project.py, including the optional
snapshot and highlights sections. -/
def narrativeLines (a : ScriptArgs) : List String :=
  [("# ") ++ a.title, (""),
   ("## Problem"), ("<What was broken or missing?>"), (""),
   ("## Challenge"), ("<Context or constraints you faced>"), (""),
   ("## Solution"), ("<What did you build or change?>"), (""),
   ("## Impact"), ("<How did things improve? Add data if possible.>")]
  ++ (if scriptsSnapshot a = [] then []
      else [(""), ("### Project Snapshot")] ++ scriptsSnapshot a)
  ++ (if splitStrip a.highlights = [] then []
      else [(""), ("### Highlights")] ++ (splitStrip a.highlights).map (fun item => ("- ") ++ item))

/-- `"\n".join(narrative) + "\n"`. -/
def scriptsNarrative (a : ScriptArgs) : String :=
  String.intercalate ("\n") (narrativeLines a) ++ ("\n")

/-- The `main` of scripts/new_project.py as a trace of filesystem
mutations.  `projExists` is the ambient fact `proj.exists()`.  When the
project root exists, `SystemExit` is raised before any mutation.  The
parent `mkdir(exist_ok=True)` inside the `write` helper is omitted from the
trace: at each of its call sites the parent is the project root, already
created by the first `ensure` call, so it mutates nothing.  The external
npm sync subprocess after the prints is outside the modelled core. -/
def scriptsMain (a : ScriptArgs) (currentYear nowIso : String) (projExists : Bool) :
    List Event × Option ScaffoldError :=
  if projExists then ([], some ScaffoldError.alreadyExists)
  else
    ([Event.mkdirp [("projects"), scriptsFolder a.title a.organization a.year currentYear, ("03_Assets")],
      Event.mkdirp [("projects"), scriptsFolder a.title a.organization a.year currentYear, ("06_Exports")],
      Event.writeJson [("projects"), scriptsFolder a.title a.organization a.year currentYear, ("02_Metadata.json")]
        (scriptsMetadata a currentYear nowIso),
      Event.writeJson [("projects"), scriptsFolder a.title a.organization a.year currentYear, ("metadata.json")]
        (scriptsMetadata a currentYear nowIso),
      Event.writeText [("projects"), scriptsFolder a.title a.organization a.year currentYear, ("01_Narrative.md")]
        (scriptsNarrative a),
      Event.writeText [("projects"), scriptsFolder a.title a.organization a.year currentYear, ("brief.md")]
        (scriptsNarrative a)],
     none)

/-! ### tools/new_project.py `main` -/

/-- The CLI parameters of tools/new_project.py (`--type` is `ty`). -/
structure ToolArgs where
  client : String
  title : String
  ty : String
  due : String
  owner : String

/-- `SUBDIRS` from tools/new_project.py, in source order. -/
def SUBDIRS : List String :=
  [("01_brief"), ("02_research"),
   ("03_design/print"), ("03_design/social"), ("03_design/large_format"),
   ("03_design/vehicle_wrap"), ("03_design/motion"), ("03_design/ivr"),
   ("03_design/web"), ("03_design/app"),
   ("04_assets/raw_photo"), ("04_assets/raw_video"), ("04_assets/audio"),
   ("04_assets/gfx"), ("04_assets/fonts"),
   ("05_edit/video_projects"), ("05_edit/motion_projects"),
   ("06_exports/print_ready"), ("06_exports/social_ready"),
   ("06_exports/video_masters"), ("06_exports/thumbnails"),
   ("06_exports/deliverables"),
   ("07_docs/approvals"), ("07_docs/rights"),
   ("08_archive")]

/-- The render context `ctx` built by tools/new_project.py `main`. -/
def toolsCtx (a : ToolArgs) : List (String × String) :=
  [(("title"), a.title), (("client"), a.client), (("owner"), a.owner),
   (("type"), a.ty), (("due_date"), a.due)]

/-- The `meta` dict written to `Meta.Project.yaml`. -/
def toolsMeta (a : ToolArgs) : List (String × Value) :=
  [(("title"), .str a.title), (("client"), .str a.client), (("owner"), .str a.owner),
   (("type"), .str a.ty), (("due_date"), .str a.due), (("status"), .str ("planning")),
   (("channels"), .arr []), (("rights"), .arr []), (("approvals"), .arr []),
   (("deliverables"), .arr []), (("tags"), .arr []), (("repo_links"), .arr [])]

/-- The project directory of tools/new_project.py:
`ROOT / 'projects' / year / f'{date_str}_{client_slug}_{title_slug}'`.
Today's year and date string are parameters. -/
def toolsProjDir (a : ToolArgs) (year dateStr : String) : List String :=
  [("projects"), year, dateStr ++ ("_") ++ slugify a.client ++ ("_") ++ slugify a.title]

/-- The fonts-folder reminder text written by tools/new_project.py. -/
def fontsNote : String :=
  "Do not commit licensed font files. Reference licenses externally."

/-- The `main` of tools/new_project.py as a trace of filesystem mutations,
in program order: the `SUBDIRS` mkdir loop, the fonts README write, the four
template renders, the static copy, the changelog write, the conditional
SocialPlan copy, and finally the `Meta.Project.yaml` record.  The template
store is the function `tm` from template name to template text.  The source
performs no existence check, so `projExists` is never consulted and the
trace is produced unconditionally. -/
def toolsMain (a : ToolArgs) (year dateStr : String) (tm : String → String)
    (_projExists : Bool) : List Event × Option ScaffoldError :=
  ((((SUBDIRS.map (fun sub => Event.mkdirp (toolsProjDir a year dateStr ++ [sub])))
    ++ [Event.writeText (toolsProjDir a year dateStr ++ [("04_assets/fonts/README.md")]) fontsNote,
        Event.writeText (toolsProjDir a year dateStr ++ [("README.md")])
          (renderTemplate (tm ("README.Project.md")) (toolsCtx a)),
        Event.writeText (toolsProjDir a year dateStr ++ [("01_brief/Brief.md")])
          (renderTemplate (tm ("Brief.Project.md")) (toolsCtx a)),
        Event.writeText (toolsProjDir a year dateStr ++ [("07_docs/Checklist.Release.md")])
          (renderTemplate (tm ("Checklist.Release.md")) (toolsCtx a)),
        Event.writeText (toolsProjDir a year dateStr ++ [("07_docs/QA.Checks.md")])
          (renderTemplate (tm ("QA.Checks.md")) (toolsCtx a)),
        Event.copyFile ("Credits.Rights.md")
          (toolsProjDir a year dateStr ++ [("07_docs/rights/Credits.Rights.md")]),
        Event.writeText (toolsProjDir a year dateStr ++ [("07_docs/changelog.md")]) ("# Changelog\n")])
    ++ (if a.ty == ("social") || a.ty == ("motion") then
          [Event.copyFile ("SocialPlan.csv")
            (toolsProjDir a year dateStr ++ [("03_design/social/SocialPlan.csv")])]
        else []))
    ++ [Event.writeJson (toolsProjDir a year dateStr ++ [("Meta.Project.yaml")]) (toolsMeta a)],
   none)

/-! ### Helper lemmas -/

theorem replaceGo_eq_of_not_contains (pat rep : List Char) :
    ∀ (text : List Char) (fuel : Nat), containsPat pat text = false →
    replaceGo pat rep fuel text = text := by
  intro text
  induction text with
  | nil => intro fuel _; cases fuel <;> rfl
  | cons c rest ih =>
    intro fuel h
    cases fuel with
    | zero => rfl
    | succ fuel =>
      rw [containsPat, Bool.or_eq_false_iff] at h
      simp only [replaceGo, h.1, Bool.false_and, Bool.false_eq_true, if_false]
      rw [ih fuel h.2]

theorem replaceAll_eq_of_not_contains (pat rep text : List Char)
    (h : containsPat pat text = false) : replaceAll pat rep text = text :=
  replaceGo_eq_of_not_contains pat rep text text.length h

theorem renderTemplate_eq_of_no_marker :
    ∀ (ctx : List (String × String)) (tmpl : String),
    (∀ kv ∈ ctx, containsPat (marker kv.1) tmpl.data = false) →
    renderTemplate tmpl ctx = tmpl := by
  intro ctx
  induction ctx with
  | nil => intro tmpl _; rfl
  | cons kv rest ih =>
    intro tmpl h
    have hstep : replaceAll (marker kv.1) kv.2.data tmpl.data = tmpl.data :=
      replaceAll_eq_of_not_contains _ _ _ (h kv (List.mem_cons_self _ _))
    have heq : renderTemplate tmpl (kv :: rest) = renderTemplate tmpl rest := by
      simp only [renderTemplate, List.foldl_cons, hstep]
    rw [heq]
    exact ih tmpl (fun kv' hkv' => h kv' (List.mem_cons_of_mem _ hkv'))

theorem mem_collapseGo : ∀ (b : Bool) (l : List Char) (c : Char),
    c ∈ collapseGo b l → c = '-' ∨ c ∈ l := by
  intro b l
  induction l generalizing b with
  | nil => intro c h; simp [collapseGo] at h
  | cons d rest ih =>
    intro c h
    by_cases hs : isSpaceChar d = true
    · rw [collapseGo, if_pos hs] at h
      rcases List.mem_append.mp h with h1 | h2
      · cases b with
        | true => simp at h1
        | false =>
          rw [if_neg (by simp)] at h1
          exact Or.inl (List.mem_singleton.mp h1)
      · rcases ih true c h2 with h3 | h4
        · exact Or.inl h3
        · exact Or.inr (List.mem_cons_of_mem _ h4)
    · rw [collapseGo, if_neg hs] at h
      rcases List.mem_cons.mp h with h1 | h2
      · exact Or.inr (h1 ▸ List.mem_cons_self _ _)
      · rcases ih false c h2 with h3 | h4
        · exact Or.inl h3
        · exact Or.inr (List.mem_cons_of_mem _ h4)

theorem mem_slugifyGo : ∀ (b : Bool) (l : List Char) (c : Char),
    c ∈ slugifyGo b l → c = '-' ∨ isLowerDigit c = true := by
  intro b l
  induction l generalizing b with
  | nil => intro c h; simp [slugifyGo] at h
  | cons d rest ih =>
    intro c h
    by_cases hd : isLowerDigit d = true
    · rw [slugifyGo, if_pos hd] at h
      rcases List.mem_cons.mp h with h1 | h2
      · exact Or.inr (h1 ▸ hd)
      · exact ih false c h2
    · rw [slugifyGo, if_neg hd] at h
      rcases List.mem_append.mp h with h1 | h2
      · cases b with
        | true => simp at h1
        | false =>
          rw [if_neg (by simp)] at h1
          exact Or.inl (List.mem_singleton.mp h1)
      · exact ih true c h2

/-- Membership survives a drop of both edges (the common shape of
`pyStripChars`, `trimEdge` and `stripDashes`). -/
theorem mem_edgeDrop (p : Char → Bool) (l : List Char) (c : Char)
    (h : c ∈ ((l.dropWhile p).reverse.dropWhile p).reverse) : c ∈ l := by
  have h1 := (List.dropWhile_sublist p).subset (List.mem_reverse.mp h)
  exact (List.dropWhile_sublist p).subset (List.mem_reverse.mp h1)

theorem mem_slugChars (l : List Char) (c : Char) (h : c ∈ slugChars l) :
    c = '-' ∨ keepSlugChar c = true := by
  have h1 : c ∈ collapseGo false (((pyStripChars l).map Char.toLower).filter keepSlugChar) :=
    mem_edgeDrop isDashUnd _ c h
  rcases mem_collapseGo false _ c h1 with h2 | h3
  · exact Or.inl h2
  · exact Or.inr (List.of_mem_filter h3)

theorem slug_data_subset (s : String) (ml : Option Nat) (c : Char)
    (h : c ∈ (slug s ml).data) : c ∈ slugChars s.data := by
  cases ml with
  | none => exact h
  | some n =>
    by_cases hn : n = 0
    · simp only [slug, hn, if_pos] at h
      exact h
    · simp only [slug, hn, if_neg, ite_false] at h
      exact List.take_subset n _ h

theorem slug_no_separator (s : String) (ml : Option Nat) : ('/') ∉ (slug s ml).data := by
  intro h
  rcases mem_slugChars s.data '/' (slug_data_subset s ml '/' h) with h1 | h2
  · exact absurd h1 (by decide)
  · exact absurd h2 (by decide)

theorem slugify_no_separator (s : String) : ('/') ∉ (slugify s).data := by
  intro h
  have h1 : ('/') ∈ slugifyGo false (s.data.map Char.toLower) :=
    mem_edgeDrop (· = '-') _ '/' h
  rcases mem_slugifyGo false _ '/' h1 with h2 | h3
  · exact absurd h2 (by decide)
  · exact absurd h3 (by decide)

theorem slug_length_le (s : String) (n : Nat) (h : 0 < n) :
    (slug s (some n)).length ≤ n := by
  have hn : ¬ n = 0 := Nat.pos_iff_ne_zero.mp h
  simp only [slug, hn, ite_false, String.length, List.length_take]
  exact Nat.min_le_left _ _

theorem slug_of_core_nil (s : String) (ml : Option Nat) (h : slugChars s.data = []) :
    slug s ml = ("") := by
  cases ml with
  | none => rw [slug, h]
  | some n =>
    by_cases hn : n = 0
    · rw [slug, if_pos hn, h]
    · rw [slug, if_neg hn, h, List.take_nil]

/-- When the organization strips to the empty string, the folder name is
computed as if the organization had been the string `personal`. -/
theorem scriptsFolder_personal (t o y cy : String) (h : pyStrip o = ("")) :
    scriptsFolder t o y cy = scriptsFolder t ("personal") y cy := by
  have h1 : (if pyStrip ("personal") = ("") then ("personal") else pyStrip ("personal"))
      = ("personal") := by decide
  unfold scriptsFolder
  rw [h, h1, if_pos rfl]

/-- When the title slug is empty, the folder name ends in `_untitled`. -/
theorem scriptsFolder_untitled_suffix (t o y cy : String) (h : slug t (some 36) = ("")) :
    List.IsSuffix ("_untitled").data (scriptsFolder t o y cy).data := by
  unfold scriptsFolder
  rw [h, if_pos rfl, String.append_assoc _ ("_") ("untitled"), String.data_append]
  have h2 : (("_") ++ ("untitled")).data = ("_untitled").data := rfl
  rw [h2]
  exact List.suffix_append _ _

theorem lookup_snoc_ne (data : List (String × Value)) (k' k : String) (v : Value)
    (h : k' ≠ k) : lookup (data ++ [(k', v)]) k = lookup data k := by
  induction data with
  | nil => simp [lookup, h]
  | cons kv rest ih =>
    obtain ⟨k0, v0⟩ := kv
    by_cases h0 : k0 = k
    · simp [lookup, h0]
    · rw [List.cons_append, lookup, if_neg h0, lookup, if_neg h0]
      exact ih

theorem validateGo_snoc_extra (data : List (String × Value)) (k' : String) (v : Value) :
    ∀ (schema : List (String × Ty)), (∀ kt ∈ schema, kt.1 ≠ k') →
    validateGo (data ++ [(k', v)]) schema = validateGo data schema := by
  intro schema
  induction schema with
  | nil => intro _; rfl
  | cons kt rest ih =>
    intro h
    have hk : kt.1 ≠ k' := h kt (List.mem_cons_self _ _)
    simp only [validateGo]
    rw [lookup_snoc_ne data k' kt.1 v (Ne.symm hk),
        ih (fun kt' h' => h kt' (List.mem_cons_of_mem _ h'))]

theorem missing_mem_validateGo (data : List (String × Value)) :
    ∀ (schema : List (String × Ty)) (k : String) (t : Ty),
    (k, t) ∈ schema → lookup data k = none →
    (("missing key: ") ++ k) ∈ validateGo data schema := by
  intro schema
  induction schema with
  | nil => intro k t h _; simp at h
  | cons kt rest ih =>
    intro k t h hl
    rcases List.mem_cons.mp h with h1 | h2
    · rw [← h1]
      simp only [validateGo, hl]
      exact List.mem_append_left _ (List.mem_singleton.mpr rfl)
    · exact List.mem_append.mpr (Or.inr (ih k t h2 hl))

theorem wrongtype_mem_validateGo (data : List (String × Value)) :
    ∀ (schema : List (String × Ty)) (k : String) (t : Ty) (v : Value),
    (k, t) ∈ schema → lookup data k = some v → matchesTy v t = false →
    (("key ") ++ k ++ (" should be ") ++ tyName t) ∈ validateGo data schema := by
  intro schema
  induction schema with
  | nil => intro k t v h _ _; simp at h
  | cons kt rest ih =>
    intro k t v h hl hm
    rcases List.mem_cons.mp h with h1 | h2
    · rw [← h1]
      simp only [validateGo, hl, hm, Bool.false_eq_true, if_false]
      exact List.mem_append_left _ (List.mem_singleton.mpr rfl)
    · exact List.mem_append.mpr (Or.inr (ih k t v h2 hl hm))

/-! ### Claim theorems -/

/-- C1 counterexample: the tools/new_project.py scaffolder run against an
already-existing project root does not fail with AlreadyExists (it reports
no error) and performs 34 filesystem mutations, not zero. -/
theorem C1_counterexample :
    (toolsMain (ToolArgs.mk ("c") ("t") ("social") ("2025-01-01") ("me"))
      ("2025") ("2025-01-02") (fun _ => ("")) true).2 = none
    ∧ (toolsMain (ToolArgs.mk ("c") ("t") ("social") ("2025-01-01") ("me"))
      ("2025") ("2025-01-02") (fun _ => ("")) true).1.length = 34 := by
  constructor
  · rfl
  · decide

/-- C1 amended: the scripts/new_project.py scaffolder fails (SystemExit,
folder already exists) with zero filesystem mutations whenever the computed
project root already exists; the tools/new_project.py scaffolder performs
no existence check at all — its behaviour is identical whether or not the
project root exists. -/
theorem C1_amended :
    (∀ (a : ScriptArgs) (currentYear nowIso : String),
      scriptsMain a currentYear nowIso true = ([], some ScaffoldError.alreadyExists))
    ∧ (∀ (a : ToolArgs) (year dateStr : String) (tm : String → String),
      toolsMain a year dateStr tm true = toolsMain a year dateStr tm false) :=
  ⟨fun _ _ _ => rfl, fun _ _ _ _ => rfl⟩

/-- C2 counterexample: two records with identical field sets but different
schemaVersion values receive identical violation lists, and no key named
schemaVersion (or schema_version) appears in the validator schema at all, so
validation is not schema-version-dispatched and only one schema shape is
supported. -/
theorem C2_counterexample :
    validate [(("schemaVersion"), Value.str ("1.0.0")), (("title"), Value.str ("T"))]
      = validate [(("schemaVersion"), Value.str ("2.0.0")), (("title"), Value.str ("T"))]
    ∧ SCHEMA.all (fun kv => kv.1 != ("schemaVersion")) = true
    ∧ SCHEMA.all (fun kv => kv.1 != ("schema_version")) = true :=
  ⟨rfl, by decide, by decide⟩

/-- C2 amended: the standalone validator applies one fixed required-field
set regardless of any declared schema version: adding a schemaVersion (or
schema_version) field of any value to a record leaves the violation list
unchanged, so validity is absolute, not schema-version-relative. -/
theorem C2_amended :
    ∀ (data : List (String × Value)) (v : Value),
    validate ((("schemaVersion"), v) :: data) = validate data
    ∧ validate ((("schema_version"), v) :: data) = validate data :=
  fun _ _ => ⟨rfl, rfl⟩

/-- C3 counterexample: rendering a template consisting of the organization
placeholder with a context lacking that key leaves the literal marker text
in the output (which is nonempty), instead of replacing it with the empty
string. -/
theorem C3_counterexample :
    renderTemplate (String.mk (marker ("organization"))) [(("title"), ("x"))]
      = String.mk (marker ("organization"))
    ∧ String.mk (marker ("organization")) ≠ ("") := by decide

/-- C3 amended: rendering replaces each placeholder marker whose key is
present in the context with the context value, but a marker whose key is
absent from the context is left as literal marker text: a template in which
no context-key marker occurs is returned completely unchanged. -/
theorem C3_amended :
    (∀ (tmpl : String) (ctx : List (String × String)),
      (∀ kv ∈ ctx, containsPat (marker kv.1) tmpl.data = false) →
      renderTemplate tmpl ctx = tmpl)
    ∧ renderTemplate (String.mk (marker ("title"))) [(("title"), ("Acme Launch"))]
        = ("Acme Launch") :=
  ⟨fun tmpl ctx h => renderTemplate_eq_of_no_marker ctx tmpl h, by decide⟩

/-- C3 witness: the amended theorem applied to a concrete template without
markers and a concrete single-key context. -/
theorem C3_amended_witness :
    renderTemplate ("plain text") [(("title"), ("x"))] = ("plain text") :=
  C3_amended.1 ("plain text") [(("title"), ("x"))] (by decide)

/-- C4 counterexample: with an empty organization the identifier is
2024_personal_acme-launch — the empty part is defaulted to personal, not
omitted as the claim states (which would give 2024_acme-launch). -/
theorem C4_counterexample :
    scriptsFolder ("Acme Launch") ("") ("2024") ("2099") = ("2024_personal_acme-launch")
    ∧ scriptsFolder ("Acme Launch") ("") ("2024") ("2099") ≠ ("2024_acme-launch") := by
  decide

/-- C4 amended: the identifier always joins exactly three parts with the
separator: the stripped year (current year when blank), the organization
slug (a blank organization is defaulted to personal, never omitted), and
the title slug (untitled when the slug is empty); the spec example yields
2024_acme-co_acme-launch. -/
theorem C4_amended :
    (∀ (cy : String), scriptsFolder ("Acme Launch") ("Acme Co") ("2024") cy
      = ("2024_acme-co_acme-launch"))
    ∧ (∀ (t o y cy : String), pyStrip o = ("") →
      scriptsFolder t o y cy = scriptsFolder t ("personal") y cy)
    ∧ (∀ (t o y cy : String), slug t (some 36) = ("") →
      List.IsSuffix ("_untitled").data (scriptsFolder t o y cy).data) :=
  ⟨fun _ => rfl,
   fun t o y cy h => scriptsFolder_personal t o y cy h,
   fun t o y cy h => scriptsFolder_untitled_suffix t o y cy h⟩

/-- C4 witness: the amended theorem applied at concrete inputs, with both
hypotheses discharged by evaluation. -/
theorem C4_amended_witness :
    pyStrip ("  ") = ("")
    ∧ scriptsFolder ("x") ("  ") ("2024") ("2099") = scriptsFolder ("x") ("personal") ("2024") ("2099")
    ∧ slug ("!!!") (some 36) = ("")
    ∧ List.IsSuffix ("_untitled").data (scriptsFolder ("!!!") ("Org") ("2024") ("2099")).data :=
  ⟨by decide,
   C4_amended.2.1 ("x") ("  ") ("2024") ("2099") (by decide),
   by decide,
   C4_amended.2.2 ("!!!") ("Org") ("2024") ("2099") (by decide)⟩

/-- C5 counterexample: a successful run of the tools/new_project.py
scaffolder violates the stage order — its trace is not ordered
layout-then-metadata-then-documents, because the metadata record is written
last, after the documents. -/
theorem C5_counterexample :
    stageOrdered ((toolsMain (ToolArgs.mk ("c") ("t") ("social") ("2025-01-01") ("me"))
      ("2025") ("2025-01-02") (fun _ => ("")) false).1) = false := by decide

/-- C5 amended: the scripts/new_project.py scaffolder respects the strict
stage order (layout, then metadata, then documents) on every successful
run; the tools/new_project.py scaffolder creates the 25 layout directories
first but renders all documents before writing the metadata record, which
is always its final mutation. -/
theorem C5_amended :
    (∀ (a : ScriptArgs) (currentYear nowIso : String),
      stageOrdered ((scriptsMain a currentYear nowIso false).1) = true)
    ∧ (∀ (a : ToolArgs) (year dateStr : String) (tm : String → String),
      ((toolsMain a year dateStr tm false).1.map eventStage)
        = List.replicate 25 0
          ++ List.replicate (if a.ty == ("social") || a.ty == ("motion") then 8 else 7) 2
          ++ [1]) := by
  constructor
  · intro a cy now
    exact (by decide : nondecB [0, 0, 1, 1, 2, 2] = true)
  · intro a y d tm
    simp only [toolsMain]
    cases h : (a.ty == ("social") || a.ty == ("motion")) <;> rfl

/-- C6: for every parameter set, the metadata record written by the
tools/new_project.py scaffolder (always the final event of its trace)
passes the standalone validator with zero violations. -/
theorem C6_meta_valid :
    ∀ (a : ToolArgs) (year dateStr : String) (tm : String → String),
    validate (toolsMeta a) = []
    ∧ ((toolsMain a year dateStr tm false).1).getLast?
        = some (Event.writeJson (toolsProjDir a year dateStr ++ [("Meta.Project.yaml")])
            (toolsMeta a)) :=
  fun _ _ _ _ => ⟨rfl, List.getLast?_concat _⟩

/-- C7 counterexample: the slug normalizers map empty input to the empty
string, not to the fallback token untitled. -/
theorem C7_counterexample :
    slug ("") none = ("") ∧ slug ("") none ≠ ("untitled")
    ∧ slugify ("") = ("") ∧ slugify ("") ≠ ("untitled") := by decide

/-- C7 amended: the slug normalizers are total (never raise) but empty,
whitespace-only, symbol-only or separator-only input yields the empty
string, not untitled; the untitled fallback is applied only at the
scripts/new_project.py call site for the title component of the folder
name. -/
theorem C7_amended :
    (∀ (ml : Option Nat),
      slug ("") ml = ("") ∧ slug ("   ") ml = ("") ∧ slug ("!!!") ml = ("")
      ∧ slug ("-_-") ml = (""))
    ∧ slugify ("") = ("") ∧ slugify ("!!!") = ("")
    ∧ (∀ (t o y cy : String), slug t (some 36) = ("") →
      List.IsSuffix ("_untitled").data (scriptsFolder t o y cy).data) :=
  ⟨fun ml => ⟨slug_of_core_nil _ ml (by decide), slug_of_core_nil _ ml (by decide),
     slug_of_core_nil _ ml (by decide), slug_of_core_nil _ ml (by decide)⟩,
   by decide, by decide,
   fun t o y cy h => scriptsFolder_untitled_suffix t o y cy h⟩

/-- C7 witness: the amended theorem applied at concrete inputs, with the
hypothesis discharged by evaluation. -/
theorem C7_amended_witness :
    slug ("") (some 24) = ("")
    ∧ slug ("!!!") (some 36) = ("")
    ∧ List.IsSuffix ("_untitled").data (scriptsFolder ("!!!") ("Acme Co") ("2024") ("2099")).data :=
  ⟨(C7_amended.1 (some 24)).1, by decide,
   C7_amended.2.2.2 ("!!!") ("Acme Co") ("2024") ("2099") (by decide)⟩

/-- C8 counterexample: the tools/new_project.py normalizer does not follow
the pipeline the claim describes: on the input a_b the described pipeline
keeps the underscore while slugify maps it to a dash. -/
theorem C8_counterexample :
    slugify ("a_b") = ("a-b") ∧ specNormalize ("a_b") none = ("a_b")
    ∧ slugify ("a_b") ≠ specNormalize ("a_b") none := by decide

/-- C8 amended: both normalizers are deterministic pure functions whose
output never contains a path separator; the scripts/new_project.py slug
truncates to the configured maximum when a positive maximum is given and
follows the described pipeline (it keeps underscores); the
tools/new_project.py slugify instead replaces every run of characters
outside lowercase-alphanumeric with a dash (mapping underscores to dashes)
and has no length cap. -/
theorem C8_amended :
    (∀ (s : String) (n : Nat), 0 < n → (slug s (some n)).length ≤ n)
    ∧ (∀ (s : String) (ml : Option Nat), ('/') ∉ (slug s ml).data)
    ∧ (∀ (s : String), ('/') ∉ (slugify s).data)
    ∧ slug ("a_b") none = ("a_b") ∧ slugify ("a_b") = ("a-b") :=
  ⟨fun s n h => slug_length_le s n h,
   fun s ml => slug_no_separator s ml,
   fun s => slugify_no_separator s,
   by decide, by decide⟩

/-- C8 witness: the amended length bound applied at a concrete input and
maximum, with the hypothesis discharged by evaluation. -/
theorem C8_amended_witness :
    (0 : Nat) < 5 ∧ (slug ("Acme Launch") (some 5)).length ≤ 5 :=
  ⟨by decide, C8_amended.1 ("Acme Launch") 5 (by decide)⟩

/-- C9: for every record, the validator reports a missing-key violation for
each absent required key and a wrong-type violation for each required key
present with a mismatched type; appending an unknown extra key never
changes the violation list; and the entry point signals success (exit 0)
exactly when the violation list is empty.  (The validator is a pure
function of the record: it performs no mutation by construction.) -/
theorem C9_validator :
    ∀ (data : List (String × Value)),
    (∀ (k : String) (t : Ty), (k, t) ∈ SCHEMA → lookup data k = none →
      (("missing key: ") ++ k) ∈ validate data)
    ∧ (∀ (k : String) (t : Ty) (v : Value), (k, t) ∈ SCHEMA →
      lookup data k = some v → matchesTy v t = false →
      (("key ") ++ k ++ (" should be ") ++ tyName t) ∈ validate data)
    ∧ (∀ (k : String) (v : Value), (∀ kt ∈ SCHEMA, kt.1 ≠ k) →
      validate (data ++ [(k, v)]) = validate data)
    ∧ (mainExit data = 0 ↔ validate data = []) := by
  intro data
  refine ⟨?_, ?_, ?_, ?_⟩
  · intro k t hmem hl
    exact missing_mem_validateGo data SCHEMA k t hmem hl
  · intro k t v hmem hl hm
    exact wrongtype_mem_validateGo data SCHEMA k t v hmem hl hm
  · intro k v hk
    exact validateGo_snoc_extra data k v SCHEMA hk
  · unfold mainExit
    by_cases h : validate data = []
    · simp [h]
    · simp [h]

/-- C9 witness: the validator theorem applied to concrete records, with all
hypotheses discharged by evaluation. -/
theorem C9_validator_witness :
    (("missing key: client") ∈ validate [(("title"), Value.str ("x"))])
    ∧ (("key title should be str") ∈ validate [(("title"), Value.arr [])])
    ∧ validate ([(("title"), Value.str ("x"))] ++ [(("extra"), Value.str ("y"))])
        = validate [(("title"), Value.str ("x"))]
    ∧ (mainExit [] = 0 ↔ validate [] = []) :=
  ⟨(C9_validator _).1 ("client") Ty.str (by decide) rfl,
   (C9_validator _).2.1 ("title") Ty.str (Value.arr []) (by decide) rfl rfl,
   (C9_validator _).2.2.1 ("extra") (Value.str ("y")) (by decide),
   (C9_validator _).2.2.2⟩

/-- C10: template substitution is sequential over the accumulated text: a
marker introduced by an earlier substitution is replaced by a later key
(first conjunct), and reversing the context order changes the result
(second conjunct), so rendering is not a single simultaneous pass over the
original template. -/
theorem C10_sequential :
    renderTemplate (String.mk (marker ("a")))
      [(("a"), String.mk (marker ("b"))), (("b"), ("X"))] = ("X")
    ∧ renderTemplate (String.mk (marker ("a")))
      [(("b"), ("X")), (("a"), String.mk (marker ("b")))] = String.mk (marker ("b")) := by
  decide

end PortfolioSpec
